import Mathlib

/-!
Verification of the case orchestration flows (`src/dispatch/case/flows.py`).

The Python flows are shallowly embedded as pure Lean functions over an
explicit `World` state (the case row, its participants, and the audit event
log).  External capability providers are modelled through an `Env` record
that fixes, for each fallible provider call, whether that call succeeds, and
supplies the identifiers the providers would mint.  Every externally visible
provider call a flow makes is recorded in an effect trace (`List Eff`); a
Python exception that propagates out of a flow is modelled as
`Except.error`, while exceptions that the source catches are folded back
into the normal return path exactly where the `try/except` blocks sit.
-/

namespace Dispatch

/-- Case lifecycle status (`CaseStatus` in the source). -/
inductive CaseStatus where
  | new
  | triage
  | escalated
  | closed
deriving DecidableEq, Repr

/-- An individual contact; only the email matters to the flows. -/
structure Individual where
  email : String
deriving DecidableEq, Repr

/-- A team contact resolved by the participant plugin. -/
structure TeamContact where
  email : String
deriving DecidableEq, Repr

/-- A participant row for a case: the individual, the currently active
role-assignments, and the oncall service the participant was engaged
through, if any. -/
structure ParticipantRec where
  individual : Individual
  active_roles : List String
  service_id : Option Nat
deriving DecidableEq, Repr

/-- An external group handle (tactical group); carries the group email. -/
structure Group where
  email : String
deriving DecidableEq, Repr

/-- An external ticket handle. -/
structure Ticket where
  ref : String
deriving DecidableEq, Repr

/-- An external storage-area handle. -/
structure Storage where
  ref : String
deriving DecidableEq, Repr

/-- An external document handle. -/
structure Document where
  ref : String
deriving DecidableEq, Repr

/-- An external conversation handle (channel and thread ids). -/
structure Conversation where
  channel_id : String
  thread_id : String
deriving DecidableEq, Repr

/-- An incident type a case type may map to. -/
structure IncidentType where
  name : String
deriving DecidableEq, Repr

/-- An oncall service attached to a case type. -/
structure OncallService where
  external_id : Nat
deriving DecidableEq, Repr

/-- The case type: optional mapped incident type and optional oncall service. -/
structure CaseType where
  incident_type : Option IncidentType
  oncall_service : Option OncallService
deriving DecidableEq, Repr

/-- The case priority; carries the page-assignee flag. -/
structure CasePriority where
  page_assignee : Bool
deriving DecidableEq, Repr

/-- An incident created by escalation: its name and, once its own creation
flow has run, its tactical group. -/
structure Incident where
  name : String
  tactical_group : Option Group
deriving DecidableEq, Repr

/-- The case row as the flows see it. -/
structure Case where
  id : Nat
  name : String
  title : String
  description : String
  status : CaseStatus
  visibility_open : Bool
  triage_at : Option Nat
  escalated_at : Option Nat
  closed_at : Option Nat
  ticket : Option Ticket
  groups : List Group
  tactical_group : Option Group
  storage : Option Storage
  case_document : Option Document
  conversation : Option Conversation
  incidents : List Incident
  case_type : CaseType
  case_priority : CasePriority
  assignee : Option ParticipantRec
deriving DecidableEq, Repr

/-- The persisted state a flow reads and writes: the case, the case's
participants, and the audit events recorded against the case. -/
structure World where
  case : Case
  participants : List ParticipantRec
  events : List String
deriving DecidableEq, Repr

/-- Externally visible provider calls, audit records and log lines a flow
emits, in order. -/
inductive Eff where
  | createCaseTicket
  | updateCaseTicket
  | deleteTicket
  | createGroup (members : List String)
  | updateGroup (member : String)
  | deleteGroup (email : String)
  | createStorage (members : List String)
  | updateStorage (members : List String)
  | deleteStorage
  | createDocument
  | updateDocument
  | createConversation
  | addToThread (emails : List String)
  | updateThread
  | createIncident
  | incidentCreateFlow
  | page
  | reactivateParticipant (email : String)
  | addParticipant (email : String)
  | assignRole (email : String) (role : String)
  | logEvent (description : String)
  | logWarning (message : String)
  | commit
deriving DecidableEq, Repr

/-- The environment of external collaborators: which plugins are active, the
outcome of each fallible provider call, the identifiers providers mint, the
contacts the participant plugin resolves, and the current clock. -/
structure Env where
  conversationPlugin : Bool
  participantPlugin : Bool
  oncallPlugin : Bool
  createConversationOk : Bool
  addToThreadOk : Bool
  updateThreadOk : Bool
  updateStorageOk : Bool
  deleteTicketOk : Bool
  deleteGroupOk : String → Bool
  deleteStorageOk : Bool
  newTicketRef : String
  newGroupEmail : String
  newStorageRef : String
  newDocumentRef : String
  newConversation : Conversation
  incidentName : String
  incidentTacticalGroup : Option Group
  resolvedIndividualContacts : List Individual
  resolvedTeamContacts : List TeamContact
  now : Nat

/-- Records an audit event against the case
(`event_service.log_case_event`). -/
def logCaseEvent (w : World) (description : String) : World :=
  { w with events := w.events ++ [description] }

/-! ## Deletion flow (`case_delete_flow`) -/

/-- The loop body of `case_delete_flow` over `case.groups`: each
`group_flows.delete_group` call is attempted in order; a raising call aborts
the remainder of the loop. -/
def delete_groups (env : Env) : List Group → List Eff × Option String
  | [] => ([], none)
  | g :: gs =>
    if env.deleteGroupOk g.email then
      let (ts, e) := delete_groups env gs
      (Eff.deleteGroup g.email :: ts, e)
    else
      ([Eff.deleteGroup g.email], some "DeleteGroupError")

/-- `case_delete_flow`: deletes the ticket (if present), then every linked
group, then the storage area (if present).  There is no exception handling
in the source, so the first raising deletion propagates and the remaining
deletions are not attempted.  Returns the attempted provider calls and the
propagated exception, if any. -/
def case_delete_flow (env : Env) (c : Case) : List Eff × Option String :=
  let (t1, e1) :=
    if c.ticket.isSome then
      ([Eff.deleteTicket], if env.deleteTicketOk then none else some "DeleteTicketError")
    else ([], none)
  match e1 with
  | some e => (t1, some e)
  | none =>
    let (t2, e2) := delete_groups env c.groups
    match e2 with
    | some e => (t1 ++ t2, some e)
    | none =>
      let (t3, e3) :=
        if c.storage.isSome then
          ([Eff.deleteStorage], if env.deleteStorageOk then none else some "DeleteStorageError")
        else ([], none)
      (t1 ++ t2 ++ t3, e3)

/-- The full deletion plan of a case: ticket if present, every group, then
storage if present. -/
def deletePlanTrace (c : Case) : List Eff :=
  (if c.ticket.isSome then [Eff.deleteTicket] else []) ++
    c.groups.map (fun g => Eff.deleteGroup g.email) ++
    (if c.storage.isSome then [Eff.deleteStorage] else [])

/-! ## Status stamp flows -/

/-- `case_triage_status_flow`: sets `triage_at` to the current time only if
it is not already set, committing the change; otherwise does nothing. -/
def case_triage_status_flow (env : Env) (w : World) : World × List Eff :=
  if w.case.triage_at.isNone then
    ({ w with case := { w.case with triage_at := some env.now } }, [Eff.commit])
  else
    (w, [])

/-- `case_closed_status_flow`: sets `closed_at` to the current time
unconditionally and commits. -/
def case_closed_status_flow (env : Env) (w : World) : World × List Eff :=
  ({ w with case := { w.case with closed_at := some env.now } }, [Eff.commit])

/-! ## Escalation promoter (`case_to_incident_escalate_flow`) -/

/-- `case_to_incident_escalate_flow`: returns without side effects when the
case already has linked incidents or its type has no mapped incident type;
otherwise builds the incident (dereferencing `case.assignee`, which raises
when the assignee is absent), creates and links it, runs the incident
creation flow, records the link audit event, and — when the case has a
storage area and the incident a tactical group — shares the storage area
with the group.  The storage-sharing call is not wrapped in any exception
handler in the source, so its failure propagates. -/
def case_to_incident_escalate_flow (env : Env) (w : World) :
    World × List Eff × Except String Unit :=
  if !w.case.incidents.isEmpty then
    (w, [], Except.ok ())
  else if w.case.case_type.incident_type.isNone then
    (w, [], Except.ok ())
  else
    match w.case.assignee with
    | none => (w, [], Except.error "AttributeError: case.assignee is None")
    | some _ =>
      let incident : Incident :=
        { name := env.incidentName, tactical_group := env.incidentTacticalGroup }
      let linkMsg := "The case has been linked to incident " ++ incident.name
      let w1 := logCaseEvent
        { w with case := { w.case with incidents := w.case.incidents ++ [incident] } } linkMsg
      let t1 := [Eff.createIncident, Eff.incidentCreateFlow, Eff.logEvent linkMsg]
      match w.case.storage, incident.tactical_group with
      | some _, some tg =>
        if env.updateStorageOk then
          let shareMsg := "The members of the incident tactical group " ++ tg.email ++
            " have been given permission to access the case storage folder"
          (logCaseEvent w1 shareMsg,
            t1 ++ [Eff.updateStorage [tg.email], Eff.logEvent shareMsg], Except.ok ())
        else
          (w1, t1 ++ [Eff.updateStorage [tg.email]], Except.error "UpdateStorageError")
      | _, _ => (w1, t1, Except.ok ())

/-- `case_escalated_status_flow`: sets `escalated_at` to the current time
unconditionally, commits, then invokes the escalation promoter. -/
def case_escalated_status_flow (env : Env) (w : World) :
    World × List Eff × Except String Unit :=
  let w1 := { w with case := { w.case with escalated_at := some env.now } }
  let (w2, t2, r) := case_to_incident_escalate_flow env w1
  (w2, Eff.commit :: t2, r)

/-! ## Transition dispatcher (`case_status_transition_flow_dispatcher`) -/

/-- `case_status_transition_flow_dispatcher`: runs the stamp flows (and,
through them, the escalation promoter) determined by the (current, previous)
status pair; every pair outside the defined table is a no-op, mirroring the
`pass` branches and fall-throughs of the source's nested conditionals. -/
def case_status_transition_flow_dispatcher (env : Env)
    (current_status previous_status : CaseStatus) (w : World) :
    World × List Eff × Except String Unit :=
  match current_status, previous_status with
  | CaseStatus.new, _ => (w, [], Except.ok ())
  | CaseStatus.triage, CaseStatus.new =>
    let (w1, t1) := case_triage_status_flow env w
    (w1, t1, Except.ok ())
  | CaseStatus.triage, _ => (w, [], Except.ok ())
  | CaseStatus.escalated, CaseStatus.new =>
    let (w1, t1) := case_triage_status_flow env w
    let (w2, t2, r) := case_escalated_status_flow env w1
    (w2, t1 ++ t2, r)
  | CaseStatus.escalated, CaseStatus.triage =>
    case_escalated_status_flow env w
  | CaseStatus.escalated, _ => (w, [], Except.ok ())
  | CaseStatus.closed, CaseStatus.new =>
    let (w1, t1) := case_triage_status_flow env w
    let (w2, t2) := case_closed_status_flow env w1
    (w2, t1 ++ t2, Except.ok ())
  | CaseStatus.closed, CaseStatus.triage =>
    let (w1, t1) := case_closed_status_flow env w
    (w1, t1, Except.ok ())
  | CaseStatus.closed, CaseStatus.escalated =>
    let (w1, t1) := case_closed_status_flow env w
    (w1, t1, Except.ok ())
  | CaseStatus.closed, CaseStatus.closed => (w, [], Except.ok ())

/-- The (current, previous) pairs for which the dispatcher defines a
non-empty action list. -/
def definedTransitions : List (CaseStatus × CaseStatus) :=
  [(CaseStatus.triage, CaseStatus.new),
   (CaseStatus.escalated, CaseStatus.new), (CaseStatus.escalated, CaseStatus.triage),
   (CaseStatus.closed, CaseStatus.new), (CaseStatus.closed, CaseStatus.triage),
   (CaseStatus.closed, CaseStatus.escalated)]

/-! ## Participant flows -/

/-- `participant_service.get_by_case_id_and_service_id`: the participant of
this case engaged through the given oncall service, if any. -/
def get_by_case_id_and_service_id (w : World) (service_id : Nat) : Option ParticipantRec :=
  w.participants.find? (fun p => p.service_id == some service_id)

/-- `participant_service.get_by_case_id_and_email`: the participant of this
case with the given email, if any. -/
def get_by_case_id_and_email (w : World) (email : String) : Option ParticipantRec :=
  w.participants.find? (fun p => p.individual.email == email)

/-- Modelled from the spec: `participant_flows.reactivate_participant` is
not part of the sources; per §4.3 it reactivates the inactive participant's
role-assignments rather than duplicating the participant. -/
def reactivate_participant (email : String) (w : World) : World :=
  { w with participants := w.participants.map (fun p =>
      if p.individual.email == email then { p with active_roles := ["participant"] } else p) }

/-- Modelled from the spec: `participant_flows.add_participant` is not part
of the sources; per §4.3 it creates a new participant with the given role
(and oncall-service binding when engaged through a service). -/
def add_participant (email : String) (role : String) (service_id : Nat) (w : World) :
    World × ParticipantRec :=
  let p : ParticipantRec :=
    { individual := { email := email }, active_roles := [role],
      service_id := if service_id == 0 then none else some service_id }
  ({ w with participants := w.participants ++ [p] }, p)

/-- `add_participants_to_conversation`: logs a warning when the case has no
conversation (but, as in the source, does not return there); returns after a
warning when no conversation plugin is active; otherwise attempts the
`add_to_thread` call inside a try block.  When the case has no conversation
the argument expression `case.conversation.channel_id` raises inside that
try block, so the exception is caught and an error event is recorded against
the case. -/
def add_participants_to_conversation (env : Env) (participant_emails : List String)
    (w : World) : World × List Eff :=
  let warn1 : List Eff :=
    if w.case.conversation.isNone then
      [Eff.logWarning "Case participant(s) not added to conversation. No conversation available for this case."]
    else []
  if !env.conversationPlugin then
    (w, warn1 ++
      [Eff.logWarning "Incident participant(s) not added to conversation. No conversation plugin enabled."])
  else
    match w.case.conversation with
    | none =>
      let msg := "Adding participant(s) to case conversation failed. Reason: AttributeError"
      (logCaseEvent w msg, warn1 ++ [Eff.logEvent msg])
    | some _ =>
      if env.addToThreadOk then
        (w, warn1 ++ [Eff.addToThread participant_emails])
      else
        let msg := "Adding participant(s) to case conversation failed. Reason: AddToThreadError"
        (logCaseEvent w msg, warn1 ++ [Eff.addToThread participant_emails, Eff.logEvent msg])

/-- The tail of `case_add_or_reactivate_participant_flow` after the
participant has been found, reactivated or created: tactical-group
membership, then the conversation push for non-closed cases when
requested. -/
def addOrReactivateTail (env : Env) (add_to_conversation : Bool) (p : ParticipantRec)
    (w : World) (tr : List Eff) : World × List Eff × Option ParticipantRec :=
  let tr1 :=
    if w.case.tactical_group.isSome then tr ++ [Eff.updateGroup p.individual.email]
    else tr
  if w.case.status != CaseStatus.closed && add_to_conversation then
    let (w2, t2) := add_participants_to_conversation env [p.individual.email] w
    (w2, tr1 ++ t2, some p)
  else
    (w, tr1, some p)

/-- `case_add_or_reactivate_participant_flow`: skips entirely when engaged
through an oncall service that already has a participant; returns the
existing participant unchanged when one with active roles exists for the
email; reactivates an inactive participant on non-closed cases; otherwise
creates the participant; then adds them to the tactical group when one
exists and pushes them to the conversation for non-closed cases when
requested. -/
def case_add_or_reactivate_participant_flow (env : Env) (user_email : String)
    (participant_role : String) (service_id : Nat) (add_to_conversation : Bool)
    (w : World) : World × List Eff × Option ParticipantRec :=
  if service_id != 0 && (get_by_case_id_and_service_id w service_id).isSome then
    (w, [], none)
  else
    match get_by_case_id_and_email w user_email with
    | some participant =>
      if !participant.active_roles.isEmpty then
        (w, [], some participant)
      else
        let (w1, t1) :=
          if w.case.status != CaseStatus.closed then
            (reactivate_participant user_email w, [Eff.reactivateParticipant user_email])
          else
            (w, [])
        addOrReactivateTail env add_to_conversation participant w1 t1
    | none =>
      let (w1, p) := add_participant user_email participant_role service_id w
      addOrReactivateTail env add_to_conversation p w1 [Eff.addParticipant user_email]

/-- `update_conversation`: resolves the conversation plugin and calls
`plugin.instance.update_thread` without checking whether the plugin lookup
returned anything; an absent plugin handle is dereferenced and raises. -/
def update_conversation (env : Env) (w : World) : World × List Eff × Except String Unit :=
  if !env.conversationPlugin then
    (w, [], Except.error "AttributeError: plugin is None")
  else
    match w.case.conversation with
    | none => (w, [], Except.error "AttributeError: case.conversation is None")
    | some _ =>
      if env.updateThreadOk then
        (logCaseEvent w "Case conversation updated.",
          [Eff.updateThread, Eff.logEvent "Case conversation updated."], Except.ok ())
      else
        (w, [Eff.updateThread], Except.error "UpdateThreadError")

/-! ## Resource provisioning (`case_create_resources_flow`) -/

/-- Modelled from the spec: `group_flows.create_group` is not part of the
sources; per §4.2 and §6 it creates the tactical group with the given
membership and attaches it to the case. -/
def create_group (env : Env) (members : List String) (w : World) : World × List Eff :=
  let g : Group := { email := env.newGroupEmail }
  ({ w with case :=
      { w.case with groups := w.case.groups ++ [g], tactical_group := some g } },
    [Eff.createGroup members])

/-- Modelled from the spec: `storage_flows.create_storage` is not part of
the sources; per §4.2 and §6 it creates the storage area with the given
initial members and attaches it to the case. -/
def create_storage (env : Env) (members : List String) (w : World) : World × List Eff :=
  ({ w with case := { w.case with storage := some { ref := env.newStorageRef } } },
    [Eff.createStorage members])

/-- Modelled from the spec: `document_flows.create_document` is not part of
the sources; per §4.2 and §6 it creates the case document from the
case-type's template and attaches it to the case. -/
def create_document (env : Env) (w : World) : World × List Eff :=
  ({ w with case := { w.case with case_document := some { ref := env.newDocumentRef } } },
    [Eff.createDocument])

/-- Modelled from the spec: `conversation_flows.create_case_conversation`
is not part of the sources; per §4.2 and §6 it creates (or resolves) the
conversation bound to the target, raising on provider failure. -/
def create_case_conversation (env : Env) (w : World) : World × List Eff × Option String :=
  if env.createConversationOk then
    ({ w with case := { w.case with conversation := some env.newConversation } },
      [Eff.createConversation], none)
  else
    (w, [Eff.createConversation], some "CreateConversationError")

/-- The loop of `case_create_resources_flow` over the resolved individual
participant emails: each is added through
`case_add_or_reactivate_participant_flow` with `add_to_conversation` off. -/
def participant_loop (env : Env) (emails : List String) (w : World) : World × List Eff :=
  match emails with
  | [] => (w, [])
  | e :: es =>
    let (w1, t1, _) := case_add_or_reactivate_participant_flow env e "participant" 0 false w
    let (w2, t2) := participant_loop env es w1
    (w2, t1 ++ t2)

/-- The tail of the provisioning try block after a successful conversation
creation: the bulk participant loop, the dereference of the case's assignee
(which raises into the enclosing try when the assignee is absent), and the
batched conversation push; a failing push is caught and recorded as a case
event. -/
def conversationBulkAddStep (env : Env) (emails : List String) (w2 : World)
    (t2 : List Eff) : World × List Eff :=
  match participant_loop env emails w2 with
  | (w3, t3) =>
    match w3.case.assignee with
    | none =>
      let msg := "Creation of case conversation failed. Reason: AttributeError"
      (logCaseEvent w3 msg, t2 ++ t3 ++ [Eff.logEvent msg])
    | some a =>
      let all_participants := emails ++ [a.individual.email]
      if env.addToThreadOk then
        (logCaseEvent w3 "Case participants added to conversation.",
          t2 ++ t3 ++ [Eff.addToThread all_participants,
            Eff.logEvent "Case participants added to conversation."])
      else
        let msg := "Creation of case conversation failed. Reason: AddParticipantsError"
        (logCaseEvent w3 msg,
          t2 ++ t3 ++ [Eff.addToThread all_participants, Eff.logEvent msg])

/-- The try block at the end of `case_create_resources_flow`: conversation
creation, then the bulk participant loop and the batched conversation push;
any exception inside it (a conversation-provider failure, the dereference of
an absent assignee, or a failing bulk push) is caught and recorded as a case
event. -/
def conversationTryBlock (env : Env) (individual_participants : List Individual)
    (w : World) : World × List Eff :=
  match create_case_conversation env w with
  | (w1, t1, some e) =>
    let msg := "Creation of case conversation failed. Reason: " ++ e
    (logCaseEvent w1 msg, t1 ++ [Eff.logEvent msg])
  | (w1, t1, none) =>
    conversationBulkAddStep env (individual_participants.map (fun i => i.email))
      (logCaseEvent w1 "Conversation added to case")
      (t1 ++ [Eff.logEvent "Conversation added to case"])

/-- `case_create_resources_flow`: appends the assignee to the direct
participants; when `create_resources` is true creates the group, storage
area and document if absent (presence skips creation), then always updates
the document and the ticket; then — unconditionally, whatever
`create_resources` is — runs the conversation try block. -/
def case_create_resources_flow (env : Env) (individual_participants : List Individual)
    (team_participants : List TeamContact) (_conversation_target : Option String)
    (create_resources : Bool) (w : World) : World × List Eff :=
  let individual_participants :=
    match w.case.assignee with
    | some a => individual_participants ++ [a.individual]
    | none => individual_participants
  let (w1, t1) :=
    if create_resources then
      let direct_participant_emails := individual_participants.map (fun i => i.email)
      let indirect_participant_emails := team_participants.map (fun t => t.email)
      let (wa, ta) :=
        if w.case.groups.isEmpty then
          create_group env
            ((direct_participant_emails ++ indirect_participant_emails).eraseDups) w
        else (w, [])
      let storage_members :=
        match wa.case.tactical_group with
        | some tg => [tg.email]
        | none => direct_participant_emails
      let (wb, tb) :=
        if wa.case.storage.isNone then create_storage env storage_members wa
        else (wa, [])
      let (wc, tc) :=
        if wb.case.case_document.isNone then create_document env wb
        else (wb, [])
      (wc, ta ++ tb ++ tc ++ [Eff.updateDocument, Eff.updateCaseTicket])
    else (w, [])
  let (w2, t2) := conversationTryBlock env individual_participants w1
  (w2, t1 ++ t2)

/-! ## Creation and update flows -/

/-- Modelled from the spec: `ticket_flows.create_case_ticket` is not part of
the sources; per §4.2 and §6 the ticket is created at case-creation time and
attached to the case. -/
def create_case_ticket (env : Env) (w : World) : World × List Eff :=
  ({ w with case := { w.case with ticket := some { ref := env.newTicketRef } } },
    [Eff.createCaseTicket])

/-- `get_case_participants`: resolves additional participants through the
participant plugin for open-visibility cases, recording an audit event when
the plugin ran. -/
def get_case_participants (env : Env) (w : World) :
    World × List Eff × List Individual × List TeamContact :=
  if w.case.visibility_open then
    if env.participantPlugin then
      (logCaseEvent w "Case participants resolved",
        [Eff.logEvent "Case participants resolved"],
        env.resolvedIndividualContacts, env.resolvedTeamContacts)
    else (w, [], [], [])
  else (w, [], [], [])

/-- The paging step of `case_new_create_flow`: when the priority pages the
assignee and no service id was passed, the case type's oncall service is
only looked up (with a warning when absent); a page is sent only when a
service id was passed and the oncall plugin is active. -/
def pageAssigneeStep (env : Env) (service_id : Option Nat) (w : World) : List Eff :=
  if w.case.case_priority.page_assignee then
    match service_id with
    | none =>
      if w.case.case_type.oncall_service.isSome then []
      else
        [Eff.logWarning "Case assignee not paged. No relationship between case type and an oncall service."]
    | some _ =>
      if env.oncallPlugin then [Eff.page]
      else [Eff.logWarning "Case assignee not paged. No plugin of type oncall enabled."]
  else []

/-- `case_new_create_flow`: creates the ticket, resolves participants, runs
the resource creation flow, updates the ticket itself only when resources
were not created (the resource flow updates it otherwise), runs the paging
step, and commits. -/
def case_new_create_flow (env : Env) (conversation_target : Option String)
    (service_id : Option Nat) (create_resources : Bool) (w : World) : World × List Eff :=
  let (w1, t1) := create_case_ticket env w
  let (w2, t2, inds, teams) := get_case_participants env w1
  let (w3, t3) :=
    case_create_resources_flow env inds teams conversation_target create_resources w2
  let t4 := if !create_resources then [Eff.updateCaseTicket] else []
  let t5 := pageAssigneeStep env service_id w3
  (w3, t1 ++ t2 ++ t3 ++ t4 ++ t5 ++ [Eff.commit])

/-- `case_assign_role_flow`: ensures the participant exists through the add
or reactivate flow (with its default arguments), then assigns the role. -/
def case_assign_role_flow (env : Env) (participant_email : String)
    (participant_role : String) (w : World) : World × List Eff :=
  let (w1, t1, _) :=
    case_add_or_reactivate_participant_flow env participant_email "participant" 0 true w
  (w1, t1 ++ [Eff.assignRole participant_email participant_role])

/-- `case_update_flow`: assigns the reporter and assignee roles, runs the
transition dispatcher on (current, previous) status, updates the ticket,
updates the document for escalated or closed cases that have one, re-adds
reporter and assignee to the tactical group when one exists, and finally —
when the case has a conversation — calls `update_conversation`, whose
failure (including an absent conversation plugin) propagates. -/
def case_update_flow (env : Env) (previous_status : CaseStatus)
    (reporter_email assignee_email : String) (w : World) :
    World × List Eff × Except String Unit :=
  let (w1, t1) := case_assign_role_flow env reporter_email "reporter" w
  let (w2, t2) := case_assign_role_flow env assignee_email "assignee" w1
  let (w3, t3, r) :=
    case_status_transition_flow_dispatcher env w2.case.status previous_status w2
  match r with
  | Except.error e => (w3, t1 ++ t2 ++ t3, Except.error e)
  | Except.ok _ =>
    let t4 := [Eff.updateCaseTicket]
    let t5 :=
      if (w3.case.status == CaseStatus.escalated || w3.case.status == CaseStatus.closed)
          && w3.case.case_document.isSome then
        [Eff.updateDocument]
      else []
    let t6 :=
      if w3.case.tactical_group.isSome then
        [Eff.updateGroup reporter_email, Eff.updateGroup assignee_email]
      else []
    if w3.case.conversation.isSome then
      let (w7, t7, r7) := update_conversation env w3
      (w7, t1 ++ t2 ++ t3 ++ t4 ++ t5 ++ t6 ++ t7, r7)
    else
      (w3, t1 ++ t2 ++ t3 ++ t4 ++ t5 ++ t6, Except.ok ())

/-! ## Concrete fixtures used to instantiate the theorems -/

/-- A sample tactical group. -/
def tgA : Group := { email := "tactical-group@example.com" }

/-- A sample conversation handle. -/
def conv0 : Conversation := { channel_id := "CH1", thread_id := "TH1" }

/-- A case type with neither an incident-type mapping nor an oncall
service. -/
def caseType0 : CaseType := { incident_type := none, oncall_service := none }

/-- A priority that does not page the assignee. -/
def priority0 : CasePriority := { page_assignee := false }

/-- A sample assignee participant. -/
def partA : ParticipantRec :=
  { individual := { email := "alice@example.com" }, active_roles := ["assignee"],
    service_id := none }

/-- A freshly created case with no external resources yet. -/
def case0 : Case :=
  { id := 1, name := "case-1", title := "title", description := "desc",
    status := CaseStatus.new, visibility_open := true,
    triage_at := none, escalated_at := none, closed_at := none,
    ticket := none, groups := [], tactical_group := none, storage := none,
    case_document := none, conversation := none, incidents := [],
    case_type := caseType0, case_priority := priority0, assignee := some partA }

/-- The world holding `case0` with no participants and no events. -/
def w0 : World := { case := case0, participants := [], events := [] }

/-- An environment in which every plugin is active and every provider call
succeeds. -/
def env0 : Env :=
  { conversationPlugin := true, participantPlugin := true, oncallPlugin := true,
    createConversationOk := true, addToThreadOk := true, updateThreadOk := true,
    updateStorageOk := true, deleteTicketOk := true, deleteGroupOk := fun _ => true,
    deleteStorageOk := true,
    newTicketRef := "TICKET-1", newGroupEmail := "tactical-group@example.com",
    newStorageRef := "STORAGE-1", newDocumentRef := "DOC-1",
    newConversation := conv0, incidentName := "incident-1",
    incidentTacticalGroup := none,
    resolvedIndividualContacts := [], resolvedTeamContacts := [], now := 100 }

/-- A case holding a ticket, two groups and a storage area, for the
deletion-flow theorems. -/
def caseDel : Case :=
  { case0 with
    ticket := some ⟨"T-1"⟩,
    groups := [⟨"g1@example.com"⟩, ⟨"g2@example.com"⟩],
    storage := some ⟨"S-1"⟩ }

/-- An environment in which ticket deletion raises but every other deletion
succeeds. -/
def envDelFail : Env := { env0 with deleteTicketOk := false }

/-! ## C1 — deletion flow and failure isolation -/

/-- Running `delete_groups` when every group deletion succeeds deletes every
group in order. -/
theorem delete_groups_all_ok (env : Env) (gs : List Group)
    (h : ∀ g, env.deleteGroupOk g = true) :
    delete_groups env gs = (gs.map (fun g => Eff.deleteGroup g.email), none) := by
  induction gs with
  | nil => rfl
  | cons g gs ih =>
    simp only [delete_groups, h g.email, if_true, ih, List.map]

/-- C1 counterexample: deleting a case with a ticket, two groups and a
storage area, where the ticket deletion raises, attempts only the ticket
deletion — the group and storage deletions do not execute, contradicting
the claim that every deletion is attempted even if a prior one raises. -/
theorem case_delete_flow_not_failure_isolated :
    case_delete_flow envDelFail caseDel =
      ([Eff.deleteTicket], some "DeleteTicketError") ∧
    Eff.deleteGroup "g1@example.com" ∉ (case_delete_flow envDelFail caseDel).1 ∧
    Eff.deleteStorage ∉ (case_delete_flow envDelFail caseDel).1 := by
  refine ⟨rfl, ?_, ?_⟩ <;> decide

/-- C1 amended: the deletions are attempted strictly in order (ticket if
present, every linked group, storage if present); when no deletion raises,
every present resource's deletion is invoked, but a deletion failure
propagates immediately — in particular a ticket-deletion failure aborts the
flow before any group or storage deletion. -/
theorem case_delete_flow_sequential (env : Env) (c : Case)
    (hg : ∀ g, env.deleteGroupOk g = true) :
    (env.deleteTicketOk = true → env.deleteStorageOk = true →
      case_delete_flow env c = (deletePlanTrace c, none)) ∧
    (c.ticket.isSome = true → env.deleteTicketOk = false →
      case_delete_flow env c = ([Eff.deleteTicket], some "DeleteTicketError")) := by
  constructor
  · intro ht hs
    unfold case_delete_flow deletePlanTrace
    rw [delete_groups_all_ok env c.groups hg]
    cases htk : c.ticket.isSome <;> simp [ht, hs] <;>
      cases hst : c.storage.isSome <;> simp [ht, hs]
  · intro ht hf
    unfold case_delete_flow
    simp [ht, hf]

/-- C1 amended witness: on the concrete deletion fixtures, the success
environment deletes everything and the failing environment aborts after the
ticket attempt. -/
theorem case_delete_flow_sequential_witness :
    case_delete_flow env0 caseDel = (deletePlanTrace caseDel, none) ∧
    case_delete_flow envDelFail caseDel = ([Eff.deleteTicket], some "DeleteTicketError") :=
  ⟨(case_delete_flow_sequential env0 caseDel (fun _ => rfl)).1 rfl rfl,
   (case_delete_flow_sequential envDelFail caseDel (fun _ => rfl)).2 (by decide) rfl⟩

/-! ## C2 — timestamp stamping -/

/-- A world whose case already has `closed_at` set. -/
def wClosedSet : World := { w0 with case := { case0 with closed_at := some 1 } }

/-- C2 counterexample: the closed stamp overwrites an already-set
`closed_at` (the source sets it unconditionally), contradicting the claim
that each stamp step sets its timestamp only if unset and never changes it
once set. -/
theorem case_closed_status_flow_overwrites :
    wClosedSet.case.closed_at = some 1 ∧
    (case_closed_status_flow env0 wClosedSet).1.case.closed_at = some 100 :=
  ⟨rfl, rfl⟩

/-- The escalation promoter never changes `escalated_at`. -/
theorem escalate_flow_preserves_escalated_at (env : Env) (w : World) :
    (case_to_incident_escalate_flow env w).1.case.escalated_at = w.case.escalated_at := by
  unfold case_to_incident_escalate_flow
  split
  · rfl
  · split
    · rfl
    · split
      · rfl
      · simp only []
        split
        · split <;> simp [logCaseEvent]
        · simp [logCaseEvent]

/-- C2 amended: the triage stamp sets `triage_at` to the current time only
if unset and is otherwise a committed-nothing no-op, so `triage_at` is set
at most once; but the escalated and closed stamps set `escalated_at` and
`closed_at` to the current time unconditionally, overwriting any previously
set value. -/
theorem case_stamp_flows_characterization (env : Env) (w : World) :
    (w.case.triage_at = none →
      case_triage_status_flow env w =
        ({ w with case := { w.case with triage_at := some env.now } }, [Eff.commit])) ∧
    (∀ t, w.case.triage_at = some t → case_triage_status_flow env w = (w, [])) ∧
    (case_escalated_status_flow env w).1.case.escalated_at = some env.now ∧
    (case_closed_status_flow env w).1.case.closed_at = some env.now := by
  refine ⟨?_, ?_, ?_, rfl⟩
  · intro h
    unfold case_triage_status_flow
    simp [h]
  · intro t h
    unfold case_triage_status_flow
    simp [h]
  · unfold case_escalated_status_flow
    simp only []
    rw [escalate_flow_preserves_escalated_at]

/-- C2 amended witness: on the fresh case the triage stamp sets
`triage_at`; on a case with `triage_at` already set it does nothing; the
escalated and closed stamps always write the current time. -/
theorem case_stamp_flows_characterization_witness :
    case_triage_status_flow env0 w0 =
      ({ w0 with case := { case0 with triage_at := some 100 } }, [Eff.commit]) ∧
    case_triage_status_flow env0 { w0 with case := { case0 with triage_at := some 1 } } =
      ({ w0 with case := { case0 with triage_at := some 1 } }, []) ∧
    (case_escalated_status_flow env0 w0).1.case.escalated_at = some 100 ∧
    (case_closed_status_flow env0 w0).1.case.closed_at = some 100 :=
  ⟨(case_stamp_flows_characterization env0 w0).1 rfl,
   (case_stamp_flows_characterization env0
      { w0 with case := { case0 with triage_at := some 1 } }).2.1 1 rfl,
   (case_stamp_flows_characterization env0 w0).2.2.1,
   (case_stamp_flows_characterization env0 w0).2.2.2⟩

/-! ## C5 — dispatcher no-ops outside the transition table -/

/-- C5: for every (current, previous) status pair outside the defined
transition table — including every diagonal pair and every reverse
transition — the dispatcher returns the world unchanged, emits no effects
(so no timestamp stamp, no commit, no escalation) and raises nothing. -/
theorem dispatcher_noop_outside_table (env : Env) (cur prev : CaseStatus) (w : World)
    (h : (cur, prev) ∉ definedTransitions) :
    case_status_transition_flow_dispatcher env cur prev w = (w, [], Except.ok ()) := by
  cases cur <;> cases prev <;>
    first
      | rfl
      | exact absurd (by decide : (_, _) ∈ definedTransitions) h

/-- C5 witness: the reverse pair (Triage → New, i.e. current = New,
previous = Triage) is outside the table and the dispatcher is a no-op on
it. -/
theorem dispatcher_noop_outside_table_witness :
    case_status_transition_flow_dispatcher env0 CaseStatus.new CaseStatus.triage w0 =
      (w0, [], Except.ok ()) :=
  dispatcher_noop_outside_table env0 CaseStatus.new CaseStatus.triage w0 (by decide)

/-! ## C4 — storage sharing after escalation -/

/-- A world ready for escalation: no linked incidents, a mapped incident
type, an assignee and a storage area. -/
def wEsc : World :=
  { w0 with case :=
    { case0 with
      storage := some ⟨"S-1"⟩,
      case_type := { incident_type := some ⟨"security"⟩, oncall_service := none } } }

/-- An environment whose incident creation yields a tactical group but whose
storage-sharing call raises. -/
def envEscFail : Env :=
  { env0 with incidentTacticalGroup := some tgA, updateStorageOk := false }

/-- C4 counterexample: escalating a case with a storage area into an
incident with a tactical group, where the storage-sharing call raises,
propagates the exception out of the promoter (aborting the enclosing flow)
and records only the linkage audit event — no audit record with the
failure's message is emitted, contradicting the claim that the failure is
caught and recorded. -/
theorem escalate_storage_share_failure_uncaught :
    (case_to_incident_escalate_flow envEscFail wEsc).2.2 =
      Except.error "UpdateStorageError" ∧
    (case_to_incident_escalate_flow envEscFail wEsc).1.events =
      ["The case has been linked to incident incident-1"] :=
  ⟨rfl, rfl⟩

/-- C4 amended: a failure of the storage-sharing step propagates uncaught —
it aborts the enclosing flow and no audit record is emitted for it — but it
does not undo the already committed incident linkage: the returned state
still holds the newly linked incident and the linkage audit event. -/
theorem escalate_storage_share_failure_keeps_linkage (env : Env) (w : World)
    (a : ParticipantRec) (ity : IncidentType) (s : Storage) (tg : Group)
    (hinc : w.case.incidents = [])
    (hty : w.case.case_type.incident_type = some ity)
    (ha : w.case.assignee = some a)
    (hs : w.case.storage = some s)
    (htg : env.incidentTacticalGroup = some tg)
    (hfail : env.updateStorageOk = false) :
    (case_to_incident_escalate_flow env w).2.2 = Except.error "UpdateStorageError" ∧
    (case_to_incident_escalate_flow env w).1.case.incidents =
      [{ name := env.incidentName, tactical_group := some tg }] ∧
    (case_to_incident_escalate_flow env w).1.events =
      w.events ++ ["The case has been linked to incident " ++ env.incidentName] := by
  unfold case_to_incident_escalate_flow
  rw [hinc, hty, ha, hs, htg]
  simp [hfail, logCaseEvent]

/-- C4 amended witness: the concrete escalation fixtures exhibit the
propagated failure with the linkage preserved. -/
theorem escalate_storage_share_failure_keeps_linkage_witness :
    (case_to_incident_escalate_flow envEscFail wEsc).2.2 =
      Except.error "UpdateStorageError" ∧
    (case_to_incident_escalate_flow envEscFail wEsc).1.case.incidents =
      [{ name := "incident-1", tactical_group := some tgA }] ∧
    (case_to_incident_escalate_flow envEscFail wEsc).1.events =
      ["The case has been linked to incident incident-1"] :=
  escalate_storage_share_failure_keeps_linkage envEscFail wEsc partA ⟨"security"⟩
    ⟨"S-1"⟩ tgA rfl rfl rfl rfl rfl rfl

/-! ## C6 — escalation is precondition-gated and one-shot -/

/-- The promoter is a no-op on a case that already has linked incidents. -/
theorem escalate_flow_noop_of_linked (env : Env) (w : World)
    (h : w.case.incidents ≠ []) :
    case_to_incident_escalate_flow env w = (w, [], Except.ok ()) := by
  unfold case_to_incident_escalate_flow
  have hE : w.case.incidents.isEmpty = false := by
    cases hI : w.case.incidents
    · exact absurd hI h
    · rfl
  rw [hE]
  rfl

/-- The promoter is a no-op when the case's type has no mapped incident
type. -/
theorem escalate_flow_noop_of_no_type (env : Env) (w : World)
    (h : w.case.case_type.incident_type = none) :
    case_to_incident_escalate_flow env w = (w, [], Except.ok ()) := by
  unfold case_to_incident_escalate_flow
  split
  · rfl
  · rw [h]
    rfl

/-- The promoter raises when the preconditions hold but the case has no
assignee (the source dereferences `case.assignee` unguarded). -/
theorem escalate_flow_error_of_no_assignee (env : Env) (w : World)
    (ity : IncidentType)
    (hI : w.case.incidents = [])
    (hty : w.case.case_type.incident_type = some ity)
    (ha : w.case.assignee = none) :
    case_to_incident_escalate_flow env w =
      (w, [], Except.error "AttributeError: case.assignee is None") := by
  unfold case_to_incident_escalate_flow
  rw [hI, hty, ha]
  rfl

/-- On the creation path, the promoter's resulting state links exactly the
newly created incident. -/
theorem escalate_flow_result_incidents (env : Env) (w : World)
    (a : ParticipantRec) (ity : IncidentType)
    (hI : w.case.incidents = [])
    (hty : w.case.case_type.incident_type = some ity)
    (ha : w.case.assignee = some a) :
    (case_to_incident_escalate_flow env w).1.case.incidents =
      [{ name := env.incidentName, tactical_group := env.incidentTacticalGroup }] := by
  unfold case_to_incident_escalate_flow
  rw [hI, hty, ha]
  cases hs : w.case.storage <;> cases htg : env.incidentTacticalGroup <;>
    simp [hs, htg, logCaseEvent]
  split <;> simp [logCaseEvent]

/-- C6: the promoter creates and links an incident only under its two
preconditions — if the case already has linked incidents or its type has no
mapped incident type it returns with no state change and no effects; and
whenever a run did create an incident, running the promoter again on the
resulting state performs nothing, so no second incident is ever created. -/
theorem escalate_flow_one_shot_gated (env : Env) (w : World) :
    (w.case.incidents ≠ [] →
      case_to_incident_escalate_flow env w = (w, [], Except.ok ())) ∧
    (w.case.case_type.incident_type = none →
      case_to_incident_escalate_flow env w = (w, [], Except.ok ())) ∧
    (∀ w' tr r, case_to_incident_escalate_flow env w = (w', tr, r) →
      Eff.createIncident ∈ tr →
      case_to_incident_escalate_flow env w' = (w', [], Except.ok ())) := by
  refine ⟨escalate_flow_noop_of_linked env w,
    escalate_flow_noop_of_no_type env w, ?_⟩
  intro w' tr r heq hmem
  have hne : w'.case.incidents ≠ [] := by
    by_cases hI : w.case.incidents = []
    · by_cases hty : w.case.case_type.incident_type = none
      · rw [escalate_flow_noop_of_no_type env w hty] at heq
        simp only [Prod.mk.injEq] at heq
        rw [← heq.2.1] at hmem
        simp at hmem
      · obtain ⟨ity, hty2⟩ := Option.ne_none_iff_exists'.mp hty
        cases ha : w.case.assignee with
        | none =>
          rw [escalate_flow_error_of_no_assignee env w ity hI hty2 ha] at heq
          simp only [Prod.mk.injEq] at heq
          rw [← heq.2.1] at hmem
          simp at hmem
        | some a =>
          have hres := escalate_flow_result_incidents env w a ity hI hty2 ha
          rw [heq] at hres
          have hres2 : w'.case.incidents =
              [{ name := env.incidentName, tactical_group := env.incidentTacticalGroup }] := hres
          simp [hres2]
    · rw [escalate_flow_noop_of_linked env w hI] at heq
      simp only [Prod.mk.injEq] at heq
      rw [← heq.2.1] at hmem
      simp at hmem
  exact escalate_flow_noop_of_linked env w' hne

/-- C6 witness: on the escalation-ready fixture the first run links the
incident and the second run is a no-op; on a case with no mapped incident
type the promoter does nothing. -/
theorem escalate_flow_one_shot_gated_witness :
    case_to_incident_escalate_flow env0
        ((case_to_incident_escalate_flow env0 wEsc).1) =
      ((case_to_incident_escalate_flow env0 wEsc).1, [], Except.ok ()) ∧
    case_to_incident_escalate_flow env0 w0 = (w0, [], Except.ok ()) :=
  ⟨(escalate_flow_one_shot_gated env0 wEsc).2.2
      (case_to_incident_escalate_flow env0 wEsc).1
      (case_to_incident_escalate_flow env0 wEsc).2.1
      (case_to_incident_escalate_flow env0 wEsc).2.2 rfl (by decide),
   (escalate_flow_one_shot_gated env0 w0).2.1 rfl⟩

/-! ## C7 — add-or-reactivate short-circuit -/

/-- C7: when a participant for the case and email already exists with
active roles — and the oncall-service de-duplication guard does not fire
(no service id, or no participant engaged through that service) — the flow
returns that existing participant with the state unchanged and zero
effects: no reactivation, no group-membership mutation, no conversation
push.  In particular a second call with the same arguments returns the same
result. -/
theorem add_or_reactivate_flow_idempotent (env : Env) (w : World)
    (email role : String) (service_id : Nat) (add_to_conversation : Bool)
    (p : ParticipantRec)
    (hsvc : service_id = 0 ∨ get_by_case_id_and_service_id w service_id = none)
    (hfind : get_by_case_id_and_email w email = some p)
    (hactive : p.active_roles ≠ []) :
    case_add_or_reactivate_participant_flow env email role service_id
        add_to_conversation w = (w, [], some p) := by
  unfold case_add_or_reactivate_participant_flow
  have hguard :
      (service_id != 0 && (get_by_case_id_and_service_id w service_id).isSome) = false := by
    rcases hsvc with h | h <;> simp [h]
  rw [hguard]
  have hE : p.active_roles.isEmpty = false := by
    cases hr : p.active_roles
    · exact absurd hr hactive
    · rfl
  simp [hfind, hE]

/-- A world whose participant store already holds the active assignee
participant. -/
def wC7 : World := { w0 with participants := [partA] }

/-- C7 witness: looking up the already-active participant returns it
unchanged with no effects. -/
theorem add_or_reactivate_flow_idempotent_witness :
    case_add_or_reactivate_participant_flow env0 "alice@example.com" "participant" 0
        true wC7 = (wC7, [], some partA) :=
  add_or_reactivate_flow_idempotent env0 wC7 "alice@example.com" "participant" 0 true
    partA (Or.inl rfl) (by decide) (by decide)

/-! ## C9 — conversation push with no conversation -/

/-- C9 failing input: a non-closed case with no conversation but an active
conversation plugin.  The source logs the no-conversation warning but —
lacking a `return` in that branch, unlike the sibling no-plugin branch —
proceeds into the try block, where dereferencing the absent conversation
raises; the exception is caught and an error event is recorded against the
case, contradicting the claim (and the spec) that the push is skipped with
only a warning and no error recorded. -/
theorem add_or_reactivate_missing_conversation_records_error :
    (case_add_or_reactivate_participant_flow env0 "bob@example.com" "participant" 0
        true w0).1.events =
      ["Adding participant(s) to case conversation failed. Reason: AttributeError"] ∧
    (case_add_or_reactivate_participant_flow env0 "bob@example.com" "participant" 0
        true w0).2.1 =
      [Eff.addParticipant "bob@example.com",
       Eff.logWarning "Case participant(s) not added to conversation. No conversation available for this case.",
       Eff.logEvent "Adding participant(s) to case conversation failed. Reason: AttributeError"] ∧
    (add_participants_to_conversation env0 ["bob@example.com"] w0).1.events =
      ["Adding participant(s) to case conversation failed. Reason: AttributeError"] :=
  ⟨rfl, rfl, rfl⟩

/-! ## C10 — the update flow's conversation step needs an active plugin -/

/-- The conversation push helper never changes the case row (it only logs
and records events). -/
theorem add_ptc_preserves_case (env : Env) (es : List String) (w : World) :
    (add_participants_to_conversation env es w).1.case = w.case := by
  unfold add_participants_to_conversation
  cases hc : w.case.conversation <;> cases hp : env.conversationPlugin <;>
    cases ha : env.addToThreadOk <;> simp [hc, hp, ha, logCaseEvent]

/-- The add-or-reactivate tail never changes the case row. -/
theorem add_or_reactivate_tail_preserves_case (env : Env) (atc : Bool)
    (p : ParticipantRec) (w : World) (tr : List Eff) :
    (addOrReactivateTail env atc p w tr).1.case = w.case := by
  unfold addOrReactivateTail
  rcases h2 : add_participants_to_conversation env [p.individual.email] w with ⟨w2, t2⟩
  have hx := add_ptc_preserves_case env [p.individual.email] w
  rw [h2] at hx
  have hx2 : w2.case = w.case := hx
  simp only [h2]
  split
  · exact hx2
  · rfl

/-- The add-or-reactivate flow never changes the case row: it writes only
the participant store and the event log. -/
theorem add_or_reactivate_flow_preserves_case (env : Env) (email role : String)
    (sid : Nat) (atc : Bool) (w : World) :
    (case_add_or_reactivate_participant_flow env email role sid atc w).1.case =
      w.case := by
  unfold case_add_or_reactivate_participant_flow
  split
  · rfl
  · rcases hf : get_by_case_id_and_email w email with _ | p <;> simp only [hf]
    · simp only [add_participant]
      rw [add_or_reactivate_tail_preserves_case]
    · split
      · rfl
      · split <;> (rw [add_or_reactivate_tail_preserves_case]; try rfl)

/-- The role-assignment flow never changes the case row. -/
theorem case_assign_role_flow_preserves_case (env : Env) (e r : String) (w : World) :
    (case_assign_role_flow env e r w).1.case = w.case := by
  unfold case_assign_role_flow
  rcases h : case_add_or_reactivate_participant_flow env e "participant" 0 true w
    with ⟨w1, t1, p⟩
  have := add_or_reactivate_flow_preserves_case env e "participant" 0 true w
  rw [h] at this
  simp only [h]
  exact this

/-- The triage stamp never changes the case's conversation handle. -/
theorem case_triage_status_flow_conversation (env : Env) (w : World) :
    (case_triage_status_flow env w).1.case.conversation = w.case.conversation := by
  unfold case_triage_status_flow
  split <;> rfl

/-- The closed stamp never changes the case's conversation handle. -/
theorem case_closed_status_flow_conversation (env : Env) (w : World) :
    (case_closed_status_flow env w).1.case.conversation = w.case.conversation := rfl

/-- For every (current, previous) pair whose current status is not
Escalated, the dispatcher returns successfully and preserves the case's
conversation handle. -/
theorem dispatcher_ok_of_not_escalated (env : Env) (cur prev : CaseStatus)
    (w : World) (h : cur ≠ CaseStatus.escalated) :
    (case_status_transition_flow_dispatcher env cur prev w).2.2 = Except.ok () ∧
    (case_status_transition_flow_dispatcher env cur prev w).1.case.conversation =
      w.case.conversation := by
  cases cur with
  | escalated => exact absurd rfl h
  | new => cases prev <;> exact ⟨rfl, rfl⟩
  | triage =>
    cases prev with
    | new =>
      rcases ht : case_triage_status_flow env w with ⟨w1, t1⟩
      have hc := case_triage_status_flow_conversation env w
      rw [ht] at hc
      have hc1 : w1.case.conversation = w.case.conversation := hc
      constructor
      · simp only [case_status_transition_flow_dispatcher, ht]
      · simp only [case_status_transition_flow_dispatcher, ht]
        exact hc1
    | triage => exact ⟨rfl, rfl⟩
    | escalated => exact ⟨rfl, rfl⟩
    | closed => exact ⟨rfl, rfl⟩
  | closed =>
    cases prev with
    | new =>
      rcases ht : case_triage_status_flow env w with ⟨w1, t1⟩
      have hc := case_triage_status_flow_conversation env w
      rw [ht] at hc
      have hc1 : w1.case.conversation = w.case.conversation := hc
      rcases hcl : case_closed_status_flow env w1 with ⟨w2, t2⟩
      have hd := case_closed_status_flow_conversation env w1
      rw [hcl] at hd
      have hd1 : w2.case.conversation = w1.case.conversation := hd
      constructor
      · simp only [case_status_transition_flow_dispatcher, ht, hcl]
      · simp only [case_status_transition_flow_dispatcher, ht, hcl]
        rw [hd1, hc1]
    | triage => exact ⟨rfl, rfl⟩
    | escalated => exact ⟨rfl, rfl⟩
    | closed => exact ⟨rfl, rfl⟩

/-- When no conversation plugin is active, `update_conversation`
dereferences the absent plugin handle and raises without touching the state
or emitting any effect. -/
theorem update_conversation_requires_plugin (env : Env) (w : World)
    (h : env.conversationPlugin = false) :
    update_conversation env w = (w, [], Except.error "AttributeError: plugin is None") := by
  unfold update_conversation
  rw [h]
  rfl

/-- C10: for every case that owns a conversation while no conversation
plugin is active, `update_conversation` dereferences the absent plugin
handle and raises rather than skipping, and consequently the whole case
update flow (here on any non-escalated current status, so that no other
step can fail first) propagates that exception instead of completing. -/
theorem case_update_flow_requires_conversation_plugin (env : Env)
    (prev : CaseStatus) (re ae : String) (w : World)
    (hconv : w.case.conversation.isSome = true)
    (hplug : env.conversationPlugin = false)
    (hst : w.case.status ≠ CaseStatus.escalated) :
    update_conversation env w = (w, [], Except.error "AttributeError: plugin is None") ∧
    (case_update_flow env prev re ae w).2.2 =
      Except.error "AttributeError: plugin is None" := by
  refine ⟨update_conversation_requires_plugin env w hplug, ?_⟩
  unfold case_update_flow
  rcases h1 : case_assign_role_flow env re "reporter" w with ⟨w1, t1⟩
  have hc1 : w1.case = w.case := by
    have := case_assign_role_flow_preserves_case env re "reporter" w
    rw [h1] at this
    exact this
  rcases h2 : case_assign_role_flow env ae "assignee" w1 with ⟨w2, t2⟩
  have hc2 : w2.case = w.case := by
    have := case_assign_role_flow_preserves_case env ae "assignee" w1
    rw [h2] at this
    rw [this, hc1]
  simp only [h1, h2]
  have hd := dispatcher_ok_of_not_escalated env w2.case.status prev w2
    (by rw [hc2]; exact hst)
  rcases h3 : case_status_transition_flow_dispatcher env w2.case.status prev w2
    with ⟨w3, t3, r⟩
  rw [h3] at hd
  have hr : r = Except.ok () := hd.1
  have hc3 : w3.case.conversation.isSome = true := by
    have hx : w3.case.conversation = w2.case.conversation := hd.2
    rw [hx, hc2]
    exact hconv
  subst hr
  simp only [h3, hc3]
  rw [update_conversation_requires_plugin env w3 hplug]
  simp

/-- A world whose case owns a conversation. -/
def wC10 : World := { w0 with case := { case0 with conversation := some conv0 } }

/-- An environment with no active conversation plugin. -/
def envC10 : Env := { env0 with conversationPlugin := false }

/-- C10 witness: on the concrete case with a conversation and no
conversation plugin, the conversation-update step and the whole update flow
raise. -/
theorem case_update_flow_requires_conversation_plugin_witness :
    update_conversation envC10 wC10 =
      (wC10, [], Except.error "AttributeError: plugin is None") ∧
    (case_update_flow envC10 CaseStatus.new "rep@example.com" "alice@example.com"
        wC10).2.2 = Except.error "AttributeError: plugin is None" :=
  case_update_flow_requires_conversation_plugin envC10 CaseStatus.new
    "rep@example.com" "alice@example.com" wC10 rfl rfl (by decide)

/-! ## C3 and C8 — provisioning traces -/

/-- Effects that provision a resource inside the `create_resources` block:
the three conditional creates and the two unconditional updates. -/
def Eff.isResourceProvisioning : Eff → Bool
  | Eff.createGroup _ => true
  | Eff.createStorage _ => true
  | Eff.createDocument => true
  | Eff.updateDocument => true
  | Eff.updateCaseTicket => true
  | _ => false

/-- Effects that create a group, storage area or document. -/
def Eff.isResourceCreate : Eff → Bool
  | Eff.createGroup _ => true
  | Eff.createStorage _ => true
  | Eff.createDocument => true
  | _ => false

/-- An effect that is not resource provisioning is not a resource create. -/
theorem isResourceCreate_eq_false (e : Eff)
    (h : e.isResourceProvisioning = false) : e.isResourceCreate = false := by
  cases e <;> simp_all [Eff.isResourceCreate, Eff.isResourceProvisioning]

/-- Bridge from the boolean trace predicate to membership. -/
theorem all_not_prov_mem {tr : List Eff}
    (h : (tr.all fun e => !e.isResourceProvisioning) = true) :
    ∀ e ∈ tr, e.isResourceProvisioning = false := by
  intro e he
  have hx := List.all_eq_true.mp h e he
  simpa using hx

/-- The conversation push emits no provisioning effect. -/
theorem add_ptc_trace_all (env : Env) (es : List String) (w : World) :
    ((add_participants_to_conversation env es w).2.all
      fun e => !e.isResourceProvisioning) = true := by
  unfold add_participants_to_conversation
  cases hc : w.case.conversation <;> cases hp : env.conversationPlugin <;>
    cases ha : env.addToThreadOk <;>
      simp [hc, hp, ha, Eff.isResourceProvisioning]

/-- The add-or-reactivate tail emits no provisioning effect when its
accumulated prefix has none. -/
theorem add_or_reactivate_tail_trace_all (env : Env) (atc : Bool)
    (p : ParticipantRec) (w : World) (tr : List Eff)
    (htr : (tr.all fun e => !e.isResourceProvisioning) = true) :
    ((addOrReactivateTail env atc p w tr).2.1.all
      fun e => !e.isResourceProvisioning) = true := by
  unfold addOrReactivateTail
  rcases h2 : add_participants_to_conversation env [p.individual.email] w with ⟨w2, t2⟩
  have ht2 := add_ptc_trace_all env [p.individual.email] w
  rw [h2] at ht2
  have ht2b : (t2.all fun e => !e.isResourceProvisioning) = true := ht2
  have hg : (Eff.updateGroup p.individual.email).isResourceProvisioning = false := rfl
  simp only [h2]
  split <;> split <;>
    simp [List.all_append, htr, ht2b, hg, -List.all_eq_true]

/-- One run of the add-or-reactivate flow emits no provisioning effect. -/
theorem add_or_reactivate_trace_all (env : Env) (email role : String) (sid : Nat)
    (atc : Bool) (w : World) :
    ((case_add_or_reactivate_participant_flow env email role sid atc w).2.1.all
      fun e => !e.isResourceProvisioning) = true := by
  unfold case_add_or_reactivate_participant_flow
  split
  · rfl
  · rcases hf : get_by_case_id_and_email w email with _ | p <;> simp only [hf]
    · simp only [add_participant]
      exact add_or_reactivate_tail_trace_all env atc _ _ [Eff.addParticipant email] rfl
    · split
      · rfl
      · split <;> exact add_or_reactivate_tail_trace_all env atc _ _ _ (by rfl)

/-- The bulk participant loop emits no provisioning effect. -/
theorem participant_loop_trace_all (env : Env) (es : List String) (w : World) :
    ((participant_loop env es w).2.all fun e => !e.isResourceProvisioning) = true := by
  induction es generalizing w with
  | nil => rfl
  | cons e es ih =>
    unfold participant_loop
    rcases h1 : case_add_or_reactivate_participant_flow env e "participant" 0 false w
      with ⟨w1, t1, p⟩
    have ha := add_or_reactivate_trace_all env e "participant" 0 false w
    rw [h1] at ha
    have ha2 : (t1.all fun e => !e.isResourceProvisioning) = true := ha
    rcases h2 : participant_loop env es w1 with ⟨w2, t2⟩
    have hb := ih w1
    rw [h2] at hb
    have hb2 : (t2.all fun e => !e.isResourceProvisioning) = true := hb
    simp only [h1, h2]
    simp [List.all_append, ha2, hb2, -List.all_eq_true]

/-- The bulk participant loop never changes the case row. -/
theorem participant_loop_preserves_case (env : Env) (es : List String) (w : World) :
    (participant_loop env es w).1.case = w.case := by
  induction es generalizing w with
  | nil => rfl
  | cons e es ih =>
    unfold participant_loop
    rcases h1 : case_add_or_reactivate_participant_flow env e "participant" 0 false w
      with ⟨w1, t1, p⟩
    have hp := add_or_reactivate_flow_preserves_case env e "participant" 0 false w
    rw [h1] at hp
    have hp2 : w1.case = w.case := hp
    rcases h2 : participant_loop env es w1 with ⟨w2, t2⟩
    have hq := ih w1
    rw [h2] at hq
    have hq2 : w2.case = w1.case := hq
    simp only [h1, h2]
    show w2.case = w.case
    rw [hq2, hp2]

/-- The bulk-add step emits no provisioning effect when its accumulated
prefix has none. -/
theorem bulk_add_step_trace_all (env : Env) (emails : List String) (w2 : World)
    (t2 : List Eff) (ht2 : (t2.all fun e => !e.isResourceProvisioning) = true) :
    ((conversationBulkAddStep env emails w2 t2).2.all
      fun e => !e.isResourceProvisioning) = true := by
  unfold conversationBulkAddStep
  rcases hl : participant_loop env emails w2 with ⟨w3, t3⟩
  simp only [hl]
  have ht3 := participant_loop_trace_all env emails w2
  rw [hl] at ht3
  have ht3b : (t3.all fun e => !e.isResourceProvisioning) = true := ht3
  have hL : ∀ s, (Eff.logEvent s).isResourceProvisioning = false := fun _ => rfl
  have hT : ∀ es, (Eff.addToThread es).isResourceProvisioning = false := fun _ => rfl
  cases ha : w3.case.assignee <;> simp only [ha]
  · simp [List.all_append, ht2, ht3b, hL, -List.all_eq_true]
  · cases hd : env.addToThreadOk <;>
      simp [hd, List.all_append, ht2, ht3b, hL, hT, -List.all_eq_true]

/-- The provisioning try block emits no provisioning effect. -/
theorem conversation_try_block_trace_all (env : Env) (ips : List Individual)
    (w : World) :
    ((conversationTryBlock env ips w).2.all fun e => !e.isResourceProvisioning) = true := by
  unfold conversationTryBlock create_case_conversation
  cases hcc : env.createConversationOk <;> simp only [hcc]
  · simp [Eff.isResourceProvisioning, -List.all_eq_true]
  · exact bulk_add_step_trace_all env _ _ _ (by rfl)

/-- Effects accumulated before the bulk-add step stay in its trace. -/
theorem bulk_add_step_prefix_mem (env : Env) (emails : List String) (w2 : World)
    (t2 : List Eff) (e : Eff) (he : e ∈ t2) :
    e ∈ (conversationBulkAddStep env emails w2 t2).2 := by
  unfold conversationBulkAddStep
  rcases hl : participant_loop env emails w2 with ⟨w3, t3⟩
  simp only [hl]
  cases ha : w3.case.assignee <;> simp only [ha]
  · simp [he]
  · cases hd : env.addToThreadOk <;> simp [hd, he]

/-- The try block always attempts the conversation creation. -/
theorem conversation_try_block_creates (env : Env) (ips : List Individual)
    (w : World) :
    Eff.createConversation ∈ (conversationTryBlock env ips w).2 := by
  unfold conversationTryBlock create_case_conversation
  cases hcc : env.createConversationOk <;> simp only [hcc]
  · simp
  · exact bulk_add_step_prefix_mem env _ _ _ _ (by simp)

/-- When the push succeeds and the case has an assignee, the bulk-add step
pushes the batched participant list to the conversation. -/
theorem bulk_add_step_push (env : Env) (emails : List String) (w2 : World)
    (t2 : List Eff) (hadd : env.addToThreadOk = true)
    (ha : w2.case.assignee.isSome = true) :
    ∃ es, Eff.addToThread es ∈ (conversationBulkAddStep env emails w2 t2).2 := by
  unfold conversationBulkAddStep
  rcases hl : participant_loop env emails w2 with ⟨w3, t3⟩
  simp only [hl]
  have hp := participant_loop_preserves_case env emails w2
  rw [hl] at hp
  have hp2 : w3.case = w2.case := hp
  obtain ⟨a, haa⟩ := Option.isSome_iff_exists.mp ha
  have h3a : w3.case.assignee = some a := by rw [hp2]; exact haa
  simp only [h3a, hadd]
  exact ⟨emails ++ [a.individual.email], by simp⟩

/-- When conversation creation and the push succeed on a case with an
assignee, the try block performs the batched conversation push. -/
theorem conversation_try_block_push (env : Env) (ips : List Individual) (w : World)
    (hcc : env.createConversationOk = true) (hadd : env.addToThreadOk = true)
    (ha : w.case.assignee.isSome = true) :
    ∃ es, Eff.addToThread es ∈ (conversationTryBlock env ips w).2 := by
  unfold conversationTryBlock create_case_conversation
  simp only [hcc]
  exact bulk_add_step_push env _ _ _ hadd ha

/-- With all three resources already present, the trace of the provisioning
flow is the document and ticket updates followed by the try block. -/
theorem create_resources_flow_existing_trace (env : Env) (ips : List Individual)
    (tps : List TeamContact) (tgt : Option String) (w : World)
    (hge : w.case.groups.isEmpty = false)
    (hsn : w.case.storage.isNone = false)
    (hdn : w.case.case_document.isNone = false) :
    (case_create_resources_flow env ips tps tgt true w).2 =
      [Eff.updateDocument, Eff.updateCaseTicket] ++
        (conversationTryBlock env
          (match w.case.assignee with
            | some a => ips ++ [a.individual]
            | none => ips) w).2 := by
  cases hA : w.case.assignee with
  | none =>
    rcases htb : conversationTryBlock env ips w with ⟨w2, t2⟩
    unfold case_create_resources_flow
    simp [hA, hge, hsn, hdn, htb]
  | some a =>
    rcases htb : conversationTryBlock env (ips ++ [a.individual]) w with ⟨w2, t2⟩
    unfold case_create_resources_flow
    simp [hA, hge, hsn, hdn, htb]

/-- With `create_resources` false, the flow's trace is exactly the try
block's trace. -/
theorem create_resources_flow_false_trace (env : Env) (ips : List Individual)
    (tps : List TeamContact) (tgt : Option String) (w : World) :
    (case_create_resources_flow env ips tps tgt false w).2 =
      (conversationTryBlock env
        (match w.case.assignee with
          | some a => ips ++ [a.individual]
          | none => ips) w).2 := by
  cases hA : w.case.assignee with
  | none =>
    rcases htb : conversationTryBlock env ips w with ⟨w2, t2⟩
    unfold case_create_resources_flow
    simp [hA, htb]
  | some a =>
    rcases htb : conversationTryBlock env (ips ++ [a.individual]) w with ⟨w2, t2⟩
    unfold case_create_resources_flow
    simp [hA, htb]

/-- C8: running the provisioning flow with `create_resources` true on a case
that already has a group, a storage area and a document invokes no provider
create operation for group, storage or document — presence is the
idempotency signal — but still invokes the document update and the ticket
update. -/
theorem provisioning_idempotent_on_existing (env : Env) (ips : List Individual)
    (tps : List TeamContact) (tgt : Option String) (w : World)
    (hg : w.case.groups ≠ [])
    (hs : w.case.storage.isSome = true)
    (hd : w.case.case_document.isSome = true) :
    (∀ e ∈ (case_create_resources_flow env ips tps tgt true w).2,
      e.isResourceCreate = false) ∧
    Eff.updateDocument ∈ (case_create_resources_flow env ips tps tgt true w).2 ∧
    Eff.updateCaseTicket ∈ (case_create_resources_flow env ips tps tgt true w).2 := by
  have hge : w.case.groups.isEmpty = false := by
    cases hh : w.case.groups
    · exact absurd hh hg
    · rfl
  have hsn : w.case.storage.isNone = false := by
    cases hss : w.case.storage
    · rw [hss] at hs; simp at hs
    · rfl
  have hdn : w.case.case_document.isNone = false := by
    cases hdd : w.case.case_document
    · rw [hdd] at hd; simp at hd
    · rfl
  have hchar := create_resources_flow_existing_trace env ips tps tgt w hge hsn hdn
  refine ⟨?_, ?_, ?_⟩
  · intro e he
    rw [hchar] at he
    rcases List.mem_append.mp he with h1 | h2
    · simp at h1
      rcases h1 with rfl | rfl <;> rfl
    · exact isResourceCreate_eq_false e
        (all_not_prov_mem (conversation_try_block_trace_all env _ w) e h2)
  · rw [hchar]
    exact List.mem_append_left _ (by simp)
  · rw [hchar]
    exact List.mem_append_left _ (by simp)

/-- A case that already has its group, storage area and document. -/
def caseC8 : Case :=
  { case0 with
    groups := [tgA], tactical_group := some tgA,
    storage := some ⟨"S-1"⟩, case_document := some ⟨"DOC-0"⟩ }

/-- The world holding `caseC8`. -/
def wC8 : World := { w0 with case := caseC8 }

/-- C8 witness: the concrete fully-provisioned case skips every create but
still gets the document and ticket updates. -/
theorem provisioning_idempotent_on_existing_witness :
    (∀ e ∈ (case_create_resources_flow env0 [] [] none true wC8).2,
      e.isResourceCreate = false) ∧
    Eff.updateDocument ∈ (case_create_resources_flow env0 [] [] none true wC8).2 ∧
    Eff.updateCaseTicket ∈ (case_create_resources_flow env0 [] [] none true wC8).2 :=
  provisioning_idempotent_on_existing env0 [] [] none wC8 (by simp [caseC8, wC8])
    rfl rfl

/-- C3 counterexample: with `create_resources` false the provisioning flow
still creates the conversation, contradicting the claim that the only
externally visible action is a ticket update. -/
theorem create_resources_false_still_creates_conversation :
    Eff.createConversation ∈ (case_create_resources_flow env0 [] [] none false w0).2 := by
  decide

/-- Counts of the ticket update in the paging step: none. -/
theorem page_step_no_ticket (env : Env) (sid : Option Nat) (w : World) :
    (pageAssigneeStep env sid w).count Eff.updateCaseTicket = 0 := by
  unfold pageAssigneeStep
  split
  · split <;> split <;> rfl
  · rfl

/-- Counts of the ticket update in the participant-resolution step: none. -/
theorem get_participants_no_ticket (env : Env) (w : World) :
    ((get_case_participants env w).2.1).count Eff.updateCaseTicket = 0 := by
  unfold get_case_participants
  split
  · split <;> rfl
  · rfl

/-- A trace with no provisioning effect holds no ticket update. -/
theorem count_eq_zero_of_all_not_prov {tr : List Eff}
    (h : (tr.all fun e => !e.isResourceProvisioning) = true) :
    tr.count Eff.updateCaseTicket = 0 := by
  rw [List.count_eq_zero]
  intro hmem
  have hx := all_not_prov_mem h _ hmem
  simp [Eff.isResourceProvisioning] at hx

/-- C3 amended: with `create_resources` false the provisioning flow performs
no resource provisioning itself — no group, storage or document creation and
no document or ticket update — and the enclosing creation flow performs
exactly one ticket update; but the conversation branch still runs: the
conversation creation is attempted and, when it and the push succeed and the
case has an assignee, the participants are pushed to the conversation in
bulk. -/
theorem create_resources_false_only_conversation (env : Env) (ips : List Individual)
    (tps : List TeamContact) (tgt : Option String) (sid : Option Nat) (w : World)
    (hcc : env.createConversationOk = true)
    (hadd : env.addToThreadOk = true)
    (ha : w.case.assignee.isSome = true) :
    (∀ e ∈ (case_create_resources_flow env ips tps tgt false w).2,
      e.isResourceProvisioning = false) ∧
    Eff.createConversation ∈ (case_create_resources_flow env ips tps tgt false w).2 ∧
    (∃ es, Eff.addToThread es ∈ (case_create_resources_flow env ips tps tgt false w).2) ∧
    (case_new_create_flow env tgt sid false w).2.count Eff.updateCaseTicket = 1 := by
  have hfalse := create_resources_flow_false_trace env ips tps tgt w
  refine ⟨?_, ?_, ?_, ?_⟩
  · intro e he
    rw [hfalse] at he
    exact all_not_prov_mem (conversation_try_block_trace_all env _ w) e he
  · rw [hfalse]
    exact conversation_try_block_creates env _ w
  · rw [hfalse]
    exact conversation_try_block_push env _ w hcc hadd ha
  · unfold case_new_create_flow
    rcases h1 : create_case_ticket env w with ⟨w1, t1⟩
    have ht1 : t1 = [Eff.createCaseTicket] := by
      unfold create_case_ticket at h1
      cases h1
      rfl
    rcases h2 : get_case_participants env w1 with ⟨w2, t2, inds, teams⟩
    have ht2 := get_participants_no_ticket env w1
    rw [h2] at ht2
    have ht2b : t2.count Eff.updateCaseTicket = 0 := ht2
    rcases h3 : case_create_resources_flow env inds teams tgt false w2 with ⟨w3, t3⟩
    have ht3 : t3.count Eff.updateCaseTicket = 0 := by
      have hx := create_resources_flow_false_trace env inds teams tgt w2
      rw [h3] at hx
      have hx2 : t3 = (conversationTryBlock env
          (match w2.case.assignee with
            | some a => inds ++ [a.individual]
            | none => inds) w2).2 := hx
      rw [hx2]
      exact count_eq_zero_of_all_not_prov (conversation_try_block_trace_all env _ w2)
    simp only [h1, h2, h3]
    simp [List.count_append, ht1, ht2b, ht3, page_step_no_ticket]

/-- C3 amended witness: on the fresh case with the all-succeeding
environment, no provisioning effect is emitted, the conversation is created,
the bulk push happens, and the creation flow updates the ticket exactly
once. -/
theorem create_resources_false_only_conversation_witness :
    (∀ e ∈ (case_create_resources_flow env0 [] [] none false w0).2,
      e.isResourceProvisioning = false) ∧
    Eff.createConversation ∈ (case_create_resources_flow env0 [] [] none false w0).2 ∧
    (∃ es, Eff.addToThread es ∈ (case_create_resources_flow env0 [] [] none false w0).2) ∧
    (case_new_create_flow env0 none none false w0).2.count Eff.updateCaseTicket = 1 :=
  create_resources_false_only_conversation env0 [] [] none none w0 rfl rfl rfl

end Dispatch
